import Mathlib

/-!
Shallow embedding of the fastapi-heroes CRUD service
(`src/app/classes.py`, `src/app/routers/heroes.py`, `src/app/routers/teams.py`).

The relational store is modelled as two lists of rows in insertion /
primary-key order; one request handler becomes one Lean function from the
store state (plus its arguments) to a result and the successor state.
SQLite assigns a fresh integer primary key as max existing id + 1 (the
rowid algorithm without AUTOINCREMENT), which `nextId` mirrors.  Errors the
handlers can produce are collected in `ApiError`.

Faithfulness notes, each tied to a place in the source:
* `HeroBase` (classes.py) carries only `name`, `secret_name`, `age`;
  `team_id` is declared on the table model `Hero` alone.  Consequently
  `HeroCreate` and `HeroRead` have no `team_id` field, which the
  embedding reproduces exactly.
* `TeamUpdate` (classes.py) declares an `id: int | None` field, and
  `update_team` applies every key present in `model_dump(exclude_unset=True)`
  with `setattr`, so a PATCH payload can rewrite a team's primary key.
* Pydantic's `exclude_unset` distinguishes a key absent from the payload
  from a key explicitly set to null.  An update-schema field is therefore
  embedded as `Option (Option _)`: outer `none` = key absent, `some none` =
  key present with value null, `some (some v)` = key present with value `v`.
* Writing null into a NOT NULL column (`hero.name`, `hero.secret_name`,
  `team.name`, `team.headquarters`, a primary key) makes the commit fail
  with an integrity error; the apply functions surface that as
  `ApiError.constraintViolation` and the handler leaves the store
  unchanged (the failed transaction is rolled back).
* The engine in database.py never turns on SQLite foreign-key enforcement
  (no `PRAGMA foreign_keys=ON`), so writes of dangling `team_id` values
  succeed; the embedding performs no referential check on `team_id`.
* On `session.delete(team)`, SQLAlchemy's default relationship cascade
  ("save-update, merge") nulls out the `team_id` of the heroes that
  referenced the deleted team; it never deletes hero rows.
* The routes declare `limit: int = Query(default=100, lte=100)`
  (heroes.py line 30, teams.py line 36).  `lte` is not a constraint
  keyword FastAPI/Pydantic validates — the enforced spelling is `le` —
  so the keyword lands in unvalidated JSON-schema extras and the handler
  receives any integer `limit` unchecked.  The list handlers below are
  therefore total (`Except` value always `.ok`): no `ValidationError` is
  possible for an out-of-range `limit`.  Negative `offset`/`limit`
  values are outside every claim, so both are embedded as `Nat`.
-/

/-- Errors a request handler can surface: 422 validation errors produced by
the framework, 404 with a detail string, and storage integrity errors. -/
inductive ApiError where
  | validationError : ApiError
  | notFound (detail : String) : ApiError
  | constraintViolation : ApiError
deriving Repr, DecidableEq

/-- Row of the `team` table: `Team(TeamBase, table=True)` in classes.py. -/
structure Team where
  id : Nat
  name : String
  headquarters : String
deriving Repr, DecidableEq

/-- Row of the `hero` table: `Hero(HeroBase, table=True)` in classes.py.
`team_id` is declared on this table model only, not on `HeroBase`. -/
structure Hero where
  id : Nat
  name : String
  secret_name : String
  age : Option Int
  team_id : Option Nat
deriving Repr, DecidableEq

/-- The relational store: the two tables, rows in insertion order. -/
structure StoreState where
  heroes : List Hero
  teams : List Team
deriving Repr, DecidableEq

def emptyStore : StoreState := { heroes := [], teams := [] }

/-- Schema `TeamCreate(TeamBase)`: name and headquarters, no id. -/
structure TeamCreate where
  name : String
  headquarters : String
deriving Repr, DecidableEq

/-- Schema `TeamRead(TeamBase)`: adds the id. -/
structure TeamRead where
  id : Nat
  name : String
  headquarters : String
deriving Repr, DecidableEq

/-- Schema `TeamUpdate(SQLModel)` of classes.py: `id`, `name`,
`headquarters`, all `| None = None`.  Outer `Option` = key present in the
payload (pydantic `exclude_unset`), inner `Option` = the value or null. -/
structure TeamUpdate where
  id : Option (Option Nat) := none
  name : Option (Option String) := none
  headquarters : Option (Option String) := none
deriving Repr, DecidableEq

/-- Schema `HeroCreate(HeroBase)`: name, secret_name, optional age.
`HeroBase` has no `team_id` field, so neither does `HeroCreate`. -/
structure HeroCreate where
  name : String
  secret_name : String
  age : Option Int := none
deriving Repr, DecidableEq

/-- Schema `HeroRead(HeroBase)`: id, name, secret_name, age — and, like
`HeroBase`, no `team_id`. -/
structure HeroRead where
  id : Nat
  name : String
  secret_name : String
  age : Option Int
deriving Repr, DecidableEq

/-- Schema `HeroUpdate(SQLModel)`: name, secret_name, age, team_id, all
optional; same `Option (Option _)` encoding of `exclude_unset`. -/
structure HeroUpdate where
  name : Option (Option String) := none
  secret_name : Option (Option String) := none
  age : Option (Option Int) := none
  team_id : Option (Option Nat) := none
deriving Repr, DecidableEq

/-- Schema `HeroReadWithTeam(HeroRead)`: plain read fields plus the plain
`TeamRead` of the hero's team, if any. -/
structure HeroReadWithTeam where
  id : Nat
  name : String
  secret_name : String
  age : Option Int
  team : Option TeamRead
deriving Repr, DecidableEq

/-- Schema `TeamReadWithHeroes(TeamRead)`: plain read fields plus the plain
`HeroRead` projections of the team's heroes. -/
structure TeamReadWithHeroes where
  id : Nat
  name : String
  headquarters : String
  heroes : List HeroRead
deriving Repr, DecidableEq

/-- Serialization of a hero row through `response_model=HeroRead`:
`team_id` is not a `HeroRead` field and is not emitted. -/
def heroToRead (h : Hero) : HeroRead :=
  { id := h.id, name := h.name, secret_name := h.secret_name, age := h.age }

/-- Serialization of a team row through `response_model=TeamRead`. -/
def teamToRead (t : Team) : TeamRead :=
  { id := t.id, name := t.name, headquarters := t.headquarters }

/-- Primary-key assignment on INSERT: SQLite's rowid choice, one more than
the largest id present. -/
def nextId (ids : List Nat) : Nat := ids.foldr max 0 + 1

/-- POST /heroes/ (`create_hero`, heroes.py): `Hero.from_orm(hero)` copies
the `HeroCreate` fields onto a fresh `Hero` row; `team_id` is not among
them, so it keeps its column default null.  Insert, commit, refresh,
return the `HeroRead` projection. -/
def create_hero (st : StoreState) (input : HeroCreate) : HeroRead × StoreState :=
  let h : Hero := { id := nextId (st.heroes.map Hero.id), name := input.name,
                    secret_name := input.secret_name, age := input.age, team_id := none }
  (heroToRead h, { st with heroes := st.heroes ++ [h] })

/-- POST /teams/ (`create_team`, teams.py): `Team.model_validate(team)`
copies the `TeamCreate` fields; insert, commit, refresh, `TeamRead`. -/
def create_team (st : StoreState) (input : TeamCreate) : TeamRead × StoreState :=
  let t : Team := { id := nextId (st.teams.map Team.id), name := input.name,
                    headquarters := input.headquarters }
  (teamToRead t, { st with teams := st.teams ++ [t] })

/-- GET /heroes/ (`read_heroes`, heroes.py):
`select(Hero).offset(offset).limit(limit)` in table order.  The `limit`
parameter's `lte=100` keyword is not an enforced constraint (see the
header note), so no input is rejected: the result is always `.ok`. -/
def read_heroes (st : StoreState) (offset limit : Nat) :
    Except ApiError (List HeroRead) :=
  .ok (((st.heroes.map heroToRead).drop offset).take limit)

/-- GET /teams/ (`read_teams`, teams.py): same shape as `read_heroes`,
including the unenforced `lte=100`. -/
def read_teams (st : StoreState) (offset limit : Nat) :
    Except ApiError (List TeamRead) :=
  .ok (((st.teams.map teamToRead).drop offset).take limit)

/-- GET /heroes/{id} (`read_hero`, heroes.py): `session.get(Hero, hero_id)`,
404 "Hero not found" when absent, otherwise the `HeroReadWithTeam`
projection, whose `team` field resolves the row's `team_id`. -/
def read_hero (st : StoreState) (hero_id : Nat) : Except ApiError HeroReadWithTeam :=
  match st.heroes.find? (fun x => x.id == hero_id) with
  | none => .error (.notFound "Hero not found")
  | some h =>
      .ok { id := h.id, name := h.name, secret_name := h.secret_name, age := h.age,
            team := (h.team_id.bind (fun tid => st.teams.find? (fun t => t.id == tid))).map teamToRead }

/-- GET /teams/{id} (`read_team`, teams.py): 404 "Team not found" when
absent, otherwise `TeamReadWithHeroes` with the plain `HeroRead`
projections of the heroes whose `team_id` references this team. -/
def read_team (st : StoreState) (team_id : Nat) : Except ApiError TeamReadWithHeroes :=
  match st.teams.find? (fun x => x.id == team_id) with
  | none => .error (.notFound "Team not found")
  | some t =>
      .ok { id := t.id, name := t.name, headquarters := t.headquarters,
            heroes := (st.heroes.filter (fun h => h.team_id == some t.id)).map heroToRead }

/-- The `for key, value in hero.dict(exclude_unset=True): setattr(...)` loop
of `update_hero` followed by the commit.  Keys absent from the payload keep
the row's values; a key present overwrites, including with null.  Null in a
NOT NULL column (`name`, `secret_name`) fails the commit with an integrity
error. -/
def applyHeroUpdate (u : HeroUpdate) (h : Hero) : Except ApiError Hero :=
  if u.name == some none || u.secret_name == some none then
    .error .constraintViolation
  else
    .ok { id := h.id,
          name := match u.name with | some (some v) => v | _ => h.name,
          secret_name := match u.secret_name with | some (some v) => v | _ => h.secret_name,
          age := match u.age with | none => h.age | some v => v,
          team_id := match u.team_id with | none => h.team_id | some v => v }

/-- The `setattr` loop of `update_team` plus commit.  `TeamUpdate` includes
`id`, so a present `id` key overwrites the primary key.  Null in a NOT NULL
column (`id`, `name`, `headquarters`) fails the commit. -/
def applyTeamUpdate (u : TeamUpdate) (t : Team) : Except ApiError Team :=
  if u.id == some none || u.name == some none || u.headquarters == some none then
    .error .constraintViolation
  else
    .ok { id := match u.id with | some (some v) => v | _ => t.id,
          name := match u.name with | some (some v) => v | _ => t.name,
          headquarters := match u.headquarters with | some (some v) => v | _ => t.headquarters }

/-- PATCH /heroes/{id} (`update_hero`, heroes.py): 404 "Hero not found" when
absent; otherwise apply the present keys, commit, and return the `HeroRead`
projection of the updated row.  A failed commit leaves the store unchanged. -/
def update_hero (st : StoreState) (hero_id : Nat) (u : HeroUpdate) :
    Except ApiError HeroRead × StoreState :=
  match st.heroes.find? (fun x => x.id == hero_id) with
  | none => (.error (.notFound "Hero not found"), st)
  | some h =>
      match applyHeroUpdate u h with
      | .error e => (.error e, st)
      | .ok h' =>
          (.ok (heroToRead h'),
           { st with heroes := st.heroes.map (fun x => if x.id == hero_id then h' else x) })

/-- PATCH /teams/{id} (`update_team`, teams.py): 404 "Team not found" when
absent; otherwise apply the present keys — `id` included — and commit.
An UPDATE that moves the primary key onto an id already taken by another
row violates primary-key uniqueness and fails the commit. -/
def update_team (st : StoreState) (team_id : Nat) (u : TeamUpdate) :
    Except ApiError TeamRead × StoreState :=
  match st.teams.find? (fun x => x.id == team_id) with
  | none => (.error (.notFound "Team not found"), st)
  | some t =>
      match applyTeamUpdate u t with
      | .error e => (.error e, st)
      | .ok t' =>
          if t'.id != team_id && st.teams.any (fun x => x.id == t'.id) then
            (.error .constraintViolation, st)
          else
            (.ok (teamToRead t'),
             { st with teams := st.teams.map (fun x => if x.id == team_id then t' else x) })

/-- DELETE /heroes/{id} (`delete_hero`, heroes.py): 404 "Hero not found"
when absent, otherwise the row is removed (hard delete) and 204 returned. -/
def delete_hero (st : StoreState) (hero_id : Nat) : Except ApiError Unit × StoreState :=
  match st.heroes.find? (fun x => x.id == hero_id) with
  | none => (.error (.notFound "Hero not found"), st)
  | some _ =>
      (.ok (), { st with heroes := st.heroes.filter (fun x => !(x.id == hero_id)) })

/-- DELETE /teams/{id} (`delete_team`, teams.py): 404 "Team not found" when
absent, otherwise the team row is removed; SQLAlchemy's default relationship
cascade nulls the `team_id` of the heroes that referenced it — hero rows
are never deleted. -/
def delete_team (st : StoreState) (team_id : Nat) : Except ApiError Unit × StoreState :=
  match st.teams.find? (fun x => x.id == team_id) with
  | none => (.error (.notFound "Team not found"), st)
  | some t =>
      (.ok (),
       { st with
         teams := st.teams.filter (fun x => !(x.id == team_id)),
         heroes := st.heroes.map (fun h =>
           if h.team_id == some t.id then { h with team_id := none } else h) })

/-! ### Concrete request sequences used by the claim evaluations -/

/-- The POST /heroes/ body of the pagination scenario, hero number `i`. -/
def mkHeroInput (i : Nat) : HeroCreate :=
  { name := "Hero" ++ toString i, secret_name := "Secret" ++ toString i }

/-- The store after creating heroes `Hero0 .. Hero(n-1)` in order. -/
def stateWithHeroes (n : Nat) : StoreState :=
  ((List.range n).map mkHeroInput).foldl (fun st c => (create_hero st c).2) emptyStore

/-- A POST /teams/ body, team number `i`. -/
def mkTeamInput (i : Nat) : TeamCreate :=
  { name := "Team" ++ toString i, headquarters := "Location" ++ toString i }

/-- The store after creating teams `Team0 .. Team(n-1)` in order. -/
def stateWithTeams (n : Nat) : StoreState :=
  ((List.range n).map mkTeamInput).foldl (fun st c => (create_team st c).2) emptyStore

/-- The hero-creation request body in the shape the spec ascribes to
`HeroCreate`: name and secret_name required, age and team_id optional.
This is the spec-side shape, kept for comparison with the code's
`HeroCreate`, which has no `team_id` field. -/
structure HeroCreatePayload where
  name : String
  secret_name : String
  age : Option Int := none
  team_id : Option Nat := none
deriving Repr, DecidableEq

/-- FastAPI parses the POST /heroes/ body into `HeroCreate`.  `team_id` is
not a `HeroCreate` field and pydantic ignores unknown keys by default, so a
`team_id` key in the body is dropped at this step. -/
def parseHeroCreate (p : HeroCreatePayload) : HeroCreate :=
  { name := p.name, secret_name := p.secret_name, age := p.age }

/-- Store holding one team, Avengers, which receives id 1. -/
def avengersStore : StoreState :=
  (create_team emptyStore { name := "Avengers", headquarters := "New York" }).2

/-- The spec's hero-with-team creation request: Iron Man joining team 1. -/
def ironManPayload : HeroCreatePayload :=
  { name := "Iron Man", secret_name := "Tony Stark", team_id := some 1 }

/-- Store after POSTing `ironManPayload` to `avengersStore`. -/
def c2State : StoreState :=
  (create_hero avengersStore (parseHeroCreate ironManPayload)).2

/-- The `HeroRead` returned by that POST. -/
def c2Read : HeroRead :=
  (create_hero avengersStore (parseHeroCreate ironManPayload)).1

/-- PATCH /teams/1 body carrying only the key `id`, set to 42. -/
def c3Update : TeamUpdate := { id := some (some 42) }

/-- Sample team row used to instantiate the general theorems. -/
def sampleTeam : Team := { id := 1, name := "Avengers", headquarters := "New York" }

/-- Sample hero row belonging to `sampleTeam`. -/
def sampleHero : Hero :=
  { id := 1, name := "Deadpond", secret_name := "Dive Wilson", age := some 30, team_id := some 1 }

/-- Store holding `sampleHero` and `sampleTeam`. -/
def sampleStore : StoreState := { heroes := [sampleHero], teams := [sampleTeam] }

/-- The pagination scenario's store: heroes Hero0 .. Hero4. -/
def fiveHeroes : StoreState := stateWithHeroes 5

/-- PATCH body setting only `age`, to 48. -/
def c4Update : HeroUpdate := { age := some (some 48) }

/-- The row `update_hero` stores for `c4Update` on `sampleHero`. -/
def c4Hero : Hero := { sampleHero with age := some 48 }

/-- PATCH body whose only key, `team_id`, is explicitly null. -/
def c5NullUpdate : HeroUpdate := { team_id := some none }

/-- PATCH body carrying only `name`; `team_id` is left unset. -/
def c5UnsetUpdate : HeroUpdate := { name := some (some "Deadpuddle") }

/-- The row stored for `c5NullUpdate` on `sampleHero`: `team_id` cleared. -/
def c5NullHero : Hero := { sampleHero with team_id := none }

/-- The row stored for `c5UnsetUpdate` on `sampleHero`: `team_id` kept. -/
def c5UnsetHero : Hero := { sampleHero with name := "Deadpuddle" }

/-- PATCH body with no keys at all. -/
def emptyHeroUpdate : HeroUpdate := {}

/-- PATCH body with no keys at all, team version. -/
def emptyTeamUpdate : TeamUpdate := {}

/-! ### Claim evaluations for the three spec/code divergences -/

set_option maxRecDepth 8000 in
/-- C1: the spec demands that `listHeroes(limit=101)` (and likewise
`listTeams`) fail with `ValidationError` rather than be truncated.  The
routes spell the bound `Query(default=100, lte=100)`; `lte` is not an
enforced constraint keyword (the enforced one is `le`), so with 101 rows
stored, `limit=101` is accepted and all 101 rows are returned — neither a
`ValidationError` nor a truncation to 100. -/
theorem C1_limit_101_accepted :
    (read_heroes (stateWithHeroes 101) 0 101).map List.length = .ok 101 ∧
    (read_teams (stateWithTeams 101) 0 101).map List.length = .ok 101 :=
  ⟨rfl, rfl⟩

/-- C2: the spec says a `HeroCreate` carries an optional `team_id` that
round-trips through `createHero`/`getHero`.  In the code `HeroCreate` has
no `team_id` field, so the Iron Man request that posts `team_id = 1` (team
1 exists) creates a hero whose stored `team_id` is null, and `getHero` on
the returned id shows no team. -/
theorem C2_create_drops_team_id :
    ironManPayload.team_id = some 1 ∧
    c2State.teams.map Team.id = [1] ∧
    c2State.heroes.map Hero.team_id = [none] ∧
    read_hero c2State c2Read.id =
      .ok { id := 1, name := "Iron Man", secret_name := "Tony Stark",
            age := none, team := none } :=
  ⟨rfl, rfl, rfl, rfl⟩

/-- C3: the spec says a team's id is immutable, but `TeamUpdate` has an
`id` field and `update_team` applies every present key, so PATCHing team 1
with `id = 42` succeeds, rewrites the primary key to 42, and afterwards
`getTeam(1)` is a 404. -/
theorem C3_update_team_changes_id :
    (update_team avengersStore 1 c3Update).1 =
      .ok { id := 42, name := "Avengers", headquarters := "New York" } ∧
    (update_team avengersStore 1 c3Update).2.teams.map Team.id = [42] ∧
    read_team (update_team avengersStore 1 c3Update).2 1 =
      .error (.notFound "Team not found") :=
  ⟨rfl, rfl, rfl⟩

/-! ### Shared lemmas about the handlers -/

/-- Rows surviving a delete-by-id never match that id again. -/
theorem find?_filter_not {α : Type} (p : α → Bool) (l : List α) :
    (l.filter (fun x => !(p x))).find? p = none := by
  rw [List.find?_eq_none]
  intro x hx
  have h2 := (List.mem_filter.mp hx).2
  simp only [Bool.not_eq_true'] at h2
  simp [h2]

/-- Replacing every row matching `p` by the fixed row `y` (itself matching
`p`) moves `find? p` to `y`, provided some row matched before. -/
theorem find?_map_replace {α : Type} (p : α → Bool) (y : α) (hy : p y = true) :
    ∀ (l : List α) (a : α), l.find? p = some a →
      (l.map (fun x => if p x then y else x)).find? p = some y := by
  intro l
  induction l with
  | nil => intro a ha; simp [List.find?] at ha
  | cons b l ih =>
      intro a ha
      by_cases hb : p b = true
      · simp [List.find?_cons_of_pos _ hb, if_pos hb, List.find?_cons_of_pos _ hy]
      · have hb' : ¬ p b := hb
        rw [List.find?_cons_of_neg _ hb'] at ha
        simp only [List.map_cons, if_neg hb']
        rw [List.find?_cons_of_neg _ hb']
        exact ih a ha

/-- Unpacking of a successful `applyHeroUpdate`: each stored field is the
payload value when the key is present and the prior value when it is not. -/
theorem applyHeroUpdate_ok_fields (u : HeroUpdate) (h h' : Hero)
    (happly : applyHeroUpdate u h = .ok h') :
    h'.id = h.id ∧
    h'.name = (match u.name with | some (some v) => v | _ => h.name) ∧
    h'.secret_name = (match u.secret_name with | some (some v) => v | _ => h.secret_name) ∧
    h'.age = (match u.age with | none => h.age | some v => v) ∧
    h'.team_id = (match u.team_id with | none => h.team_id | some v => v) := by
  rw [applyHeroUpdate] at happly
  by_cases hc : (u.name == some none || u.secret_name == some none) = true
  · rw [if_pos hc] at happly; exact absurd happly (by simp)
  · rw [if_neg hc] at happly
    injection happly with hrec
    subst hrec
    exact ⟨rfl, rfl, rfl, rfl, rfl⟩

/-- Unpacking of a successful `applyTeamUpdate`. -/
theorem applyTeamUpdate_ok_fields (u : TeamUpdate) (t t' : Team)
    (happly : applyTeamUpdate u t = .ok t') :
    t'.id = (match u.id with | some (some v) => v | _ => t.id) ∧
    t'.name = (match u.name with | some (some v) => v | _ => t.name) ∧
    t'.headquarters = (match u.headquarters with | some (some v) => v | _ => t.headquarters) := by
  rw [applyTeamUpdate] at happly
  by_cases hc : (u.id == some none || u.name == some none || u.headquarters == some none) = true
  · rw [if_pos hc] at happly; exact absurd happly (by simp)
  · rw [if_neg hc] at happly
    injection happly with hrec
    subst hrec
    exact ⟨rfl, rfl, rfl⟩

/-- The successful branch of `update_hero`: the row is found and the commit
succeeds, so the handler returns the read projection of the updated row and
replaces exactly the rows carrying the requested id. -/
theorem update_hero_found (st : StoreState) (hero_id : Nat) (u : HeroUpdate)
    (h h' : Hero)
    (hfind : st.heroes.find? (fun x => x.id == hero_id) = some h)
    (happly : applyHeroUpdate u h = .ok h') :
    update_hero st hero_id u =
      (.ok (heroToRead h'),
       { st with heroes := st.heroes.map (fun x => if x.id == hero_id then h' else x) }) := by
  rw [update_hero, hfind]
  dsimp only
  rw [happly]

/-- The successful branch of `update_team` when the (possibly rewritten)
primary key causes no uniqueness violation. -/
theorem update_team_found (st : StoreState) (team_id : Nat) (u : TeamUpdate)
    (t t' : Team)
    (tfind : st.teams.find? (fun x => x.id == team_id) = some t)
    (happly : applyTeamUpdate u t = .ok t')
    (hguard : (t'.id != team_id && st.teams.any (fun x => x.id == t'.id)) = false) :
    update_team st team_id u =
      (.ok (teamToRead t'),
       { st with teams := st.teams.map (fun x => if x.id == team_id then t' else x) }) := by
  rw [update_team, tfind]
  dsimp only
  rw [happly]
  dsimp only
  simp [hguard]

/-! ### Confirmed claims -/

/-- C4: `updateHero` changes only the fields whose keys are explicitly
present in the payload.  On the successful branch the handler stores
exactly the merged row and returns its read projection, the id is kept,
rows with other ids are untouched, and each field whose key is absent from
the payload equals its pre-update value, both in the stored row and in the
returned `HeroRead`. -/
theorem C4_update_hero_frame (st : StoreState) (hero_id : Nat) (u : HeroUpdate)
    (h h' : Hero)
    (hfind : st.heroes.find? (fun x => x.id == hero_id) = some h)
    (happly : applyHeroUpdate u h = .ok h') :
    update_hero st hero_id u =
      (.ok (heroToRead h'),
       { st with heroes := st.heroes.map (fun x => if x.id == hero_id then h' else x) }) ∧
    (∀ x ∈ st.heroes, (x.id == hero_id) = false → x ∈ (update_hero st hero_id u).2.heroes) ∧
    h'.id = h.id ∧
    (u.name = none → h'.name = h.name ∧ (heroToRead h').name = (heroToRead h).name) ∧
    (u.secret_name = none →
      h'.secret_name = h.secret_name ∧ (heroToRead h').secret_name = (heroToRead h).secret_name) ∧
    (u.age = none → h'.age = h.age ∧ (heroToRead h').age = (heroToRead h).age) ∧
    (u.team_id = none → h'.team_id = h.team_id) := by
  obtain ⟨hid, hname, hsec, hage, hteam⟩ := applyHeroUpdate_ok_fields u h h' happly
  have he := update_hero_found st hero_id u h h' hfind happly
  refine ⟨he, ?_, hid, ?_, ?_, ?_, ?_⟩
  · intro x hx hxid
    rw [he]
    have hmm := List.mem_map_of_mem (fun x => if x.id == hero_id then h' else x) hx
    simpa [hxid] using hmm
  · intro hn; rw [hn] at hname; exact ⟨hname, hname⟩
  · intro hn; rw [hn] at hsec; exact ⟨hsec, hsec⟩
  · intro hn; rw [hn] at hage; exact ⟨hage, hage⟩
  · intro hn; rw [hn] at hteam; exact hteam

/-- Witness for C4: patching only `age` on the sample store stores exactly
the age change and returns its projection. -/
theorem C4_witness :
    update_hero sampleStore 1 c4Update =
      (.ok (heroToRead c4Hero),
       { sampleStore with
         heroes := sampleStore.heroes.map (fun x => if x.id == 1 then c4Hero else x) }) :=
  (C4_update_hero_frame sampleStore 1 c4Update sampleHero c4Hero rfl rfl).1

/-- C5: in `updateHero`, a key present with an explicit null clears the
field while an absent key leaves it untouched — the two cases are
distinguished: for the nullable columns `team_id` and `age`, a payload key
set to null stores null, and an unset key keeps the prior value. -/
theorem C5_null_clears_unset_keeps (st : StoreState) (hero_id : Nat)
    (u : HeroUpdate) (h h' : Hero)
    (hfind : st.heroes.find? (fun x => x.id == hero_id) = some h)
    (happly : applyHeroUpdate u h = .ok h') :
    (update_hero st hero_id u).1 = .ok (heroToRead h') ∧
    (u.team_id = some none → h'.team_id = none) ∧
    (u.team_id = none → h'.team_id = h.team_id) ∧
    (u.age = some none → h'.age = none) ∧
    (u.age = none → h'.age = h.age) := by
  obtain ⟨-, -, -, hage, hteam⟩ := applyHeroUpdate_ok_fields u h h' happly
  refine ⟨by rw [update_hero_found st hero_id u h h' hfind happly], ?_, ?_, ?_, ?_⟩
  · intro hn; rw [hn] at hteam; exact hteam
  · intro hn; rw [hn] at hteam; exact hteam
  · intro hn; rw [hn] at hage; exact hage
  · intro hn; rw [hn] at hage; exact hage

/-- Witness for C5: on the sample hero (whose `team_id` is 1), the payload
with `team_id` explicitly null clears it, while the payload that only
renames leaves `team_id` at its prior value. -/
theorem C5_witness :
    ((update_hero sampleStore 1 c5NullUpdate).1 = .ok (heroToRead c5NullHero) ∧
     c5NullHero.team_id = none) ∧
    ((update_hero sampleStore 1 c5UnsetUpdate).1 = .ok (heroToRead c5UnsetHero) ∧
     c5UnsetHero.team_id = sampleHero.team_id) :=
  ⟨⟨(C5_null_clears_unset_keeps sampleStore 1 c5NullUpdate sampleHero c5NullHero rfl rfl).1,
    (C5_null_clears_unset_keeps sampleStore 1 c5NullUpdate sampleHero c5NullHero rfl rfl).2.1 rfl⟩,
   ⟨(C5_null_clears_unset_keeps sampleStore 1 c5UnsetUpdate sampleHero c5UnsetHero rfl rfl).1,
    (C5_null_clears_unset_keeps sampleStore 1 c5UnsetUpdate sampleHero c5UnsetHero rfl rfl).2.2.1 rfl⟩⟩

/-- C6: on an id absent from the store, get, update and delete answer 404
with exactly "Hero not found" for heroes and exactly "Team not found" for
teams, for any prior state and any update payload, leaving the store
unchanged. -/
theorem C6_missing_id_not_found (st : StoreState) (hero_id team_id : Nat)
    (hh : st.heroes.find? (fun x => x.id == hero_id) = none)
    (ht : st.teams.find? (fun x => x.id == team_id) = none) :
    read_hero st hero_id = .error (.notFound "Hero not found") ∧
    (∀ u, update_hero st hero_id u = (.error (.notFound "Hero not found"), st)) ∧
    delete_hero st hero_id = (.error (.notFound "Hero not found"), st) ∧
    read_team st team_id = .error (.notFound "Team not found") ∧
    (∀ u, update_team st team_id u = (.error (.notFound "Team not found"), st)) ∧
    delete_team st team_id = (.error (.notFound "Team not found"), st) := by
  refine ⟨?_, fun u => ?_, ?_, ?_, fun u => ?_, ?_⟩ <;>
    simp [read_hero, update_hero, delete_hero, read_team, update_team, delete_team, hh, ht]

/-- Witness for C6: id 999 in the empty store. -/
theorem C6_witness :
    read_hero emptyStore 999 = .error (.notFound "Hero not found") ∧
    delete_hero emptyStore 999 = (.error (.notFound "Hero not found"), emptyStore) ∧
    read_team emptyStore 999 = .error (.notFound "Team not found") ∧
    delete_team emptyStore 999 = (.error (.notFound "Team not found"), emptyStore) :=
  ⟨(C6_missing_id_not_found emptyStore 999 999 rfl rfl).1,
   (C6_missing_id_not_found emptyStore 999 999 rfl rfl).2.2.1,
   (C6_missing_id_not_found emptyStore 999 999 rfl rfl).2.2.2.1,
   (C6_missing_id_not_found emptyStore 999 999 rfl rfl).2.2.2.2.2⟩

/-- C7: deleting an existing id is a hard delete — the delete succeeds and
a subsequent get on the same id answers 404, for heroes and for teams. -/
theorem C7_delete_then_get (st st2 : StoreState) (hero_id team_id : Nat)
    (h : Hero) (t : Team)
    (hfind : st.heroes.find? (fun x => x.id == hero_id) = some h)
    (tfind : st2.teams.find? (fun x => x.id == team_id) = some t) :
    (delete_hero st hero_id).1 = .ok () ∧
    read_hero (delete_hero st hero_id).2 hero_id = .error (.notFound "Hero not found") ∧
    (delete_team st2 team_id).1 = .ok () ∧
    read_team (delete_team st2 team_id).2 team_id = .error (.notFound "Team not found") := by
  have e1 : delete_hero st hero_id =
      (.ok (), { st with heroes := st.heroes.filter (fun x => !(x.id == hero_id)) }) := by
    rw [delete_hero, hfind]
  have e2 : delete_team st2 team_id =
      (.ok (), { st2 with
        teams := st2.teams.filter (fun x => !(x.id == team_id)),
        heroes := st2.heroes.map (fun x =>
          if x.team_id == some t.id then { x with team_id := none } else x) }) := by
    rw [delete_team, tfind]
  refine ⟨by rw [e1], ?_, by rw [e2], ?_⟩
  · rw [e1]
    simp [read_hero, find?_filter_not (fun x => x.id == hero_id) st.heroes]
  · rw [e2]
    simp [read_team, find?_filter_not (fun x => x.id == team_id) st2.teams]

/-- Witness for C7: deleting hero 1 and team 1 of the sample store, then
getting them. -/
theorem C7_witness :
    (delete_hero sampleStore 1).1 = .ok () ∧
    read_hero (delete_hero sampleStore 1).2 1 = .error (.notFound "Hero not found") ∧
    (delete_team sampleStore 1).1 = .ok () ∧
    read_team (delete_team sampleStore 1).2 1 = .error (.notFound "Team not found") :=
  C7_delete_then_get sampleStore sampleStore 1 1 sampleHero sampleTeam rfl rfl

/-- C8: deleting a team never deletes the heroes referencing it: each such
hero row is still stored afterwards (its `team_id` nulled by the ORM's
default cascade), `getHero` on its id still succeeds, and `listHeroes`
still returns its read projection. -/
theorem C8_delete_team_keeps_heroes (st : StoreState) (team_id : Nat)
    (t : Team) (h : Hero)
    (tfind : st.teams.find? (fun x => x.id == team_id) = some t)
    (hmem : h ∈ st.heroes) (href : h.team_id = some t.id) :
    (delete_team st team_id).1 = .ok () ∧
    { h with team_id := none } ∈ (delete_team st team_id).2.heroes ∧
    (∃ r, read_hero (delete_team st team_id).2 h.id = .ok r) ∧
    (∃ l, read_heroes (delete_team st team_id).2 0 (delete_team st team_id).2.heroes.length
            = .ok l ∧ heroToRead h ∈ l) := by
  have e : delete_team st team_id =
      (.ok (), { st with
        teams := st.teams.filter (fun x => !(x.id == team_id)),
        heroes := st.heroes.map (fun x =>
          if x.team_id == some t.id then { x with team_id := none } else x) }) := by
    rw [delete_team, tfind]
  have hcond : (h.team_id == some t.id) = true := by simp [href]
  have hmem' : ({ h with team_id := none } : Hero) ∈
      st.heroes.map (fun x =>
        if x.team_id == some t.id then { x with team_id := none } else x) := by
    have hmm := List.mem_map_of_mem
      (fun x => if x.team_id == some t.id then { x with team_id := none } else x) hmem
    simpa [hcond] using hmm
  refine ⟨by rw [e], by rw [e]; exact hmem', ?_, ?_⟩
  · rw [e]
    have hfs : ((st.heroes.map (fun x =>
        if x.team_id == some t.id then { x with team_id := none } else x)).find?
        (fun x => x.id == h.id)).isSome := by
      rw [List.find?_isSome]
      exact ⟨{ h with team_id := none }, hmem', by simp⟩
    obtain ⟨h0, hh0⟩ := Option.isSome_iff_exists.mp hfs
    exact ⟨_, by simp only [read_hero]; rw [hh0]⟩
  · rw [e]
    refine ⟨(st.heroes.map (fun x =>
        if x.team_id == some t.id then { x with team_id := none } else x)).map heroToRead,
      ?_, ?_⟩
    · show read_heroes _ 0 _ = .ok _
      rw [read_heroes]
      simp [List.take_of_length_le, List.length_map]
    · have hm2 := List.mem_map_of_mem heroToRead hmem'
      have hsame : heroToRead { h with team_id := none } = heroToRead h := rfl
      rw [hsame] at hm2
      exact hm2

/-- Witness for C8: deleting team 1 keeps the sample hero. -/
theorem C8_witness :
    (delete_team sampleStore 1).1 = .ok () ∧
    ({ sampleHero with team_id := none } : Hero) ∈ (delete_team sampleStore 1).2.heroes :=
  ⟨(C8_delete_team_keeps_heroes sampleStore 1 sampleTeam sampleHero rfl (by decide) rfl).1,
   (C8_delete_team_keeps_heroes sampleStore 1 sampleTeam sampleHero rfl (by decide) rfl).2.1⟩

/-- C9: for any store, offset ≥ 0 (a `Nat` here) and limit in [0, 100],
`listHeroes` returns exactly the window of the table order that skips
`offset` rows and keeps at most `limit` — hence never more than `limit`
entries and never fewer than min(limit, rows remaining after the offset). -/
theorem C9_list_heroes_window (st : StoreState) (offset limit : Nat)
    (_hlim : limit ≤ 100) :
    read_heroes st offset limit = .ok (((st.heroes.map heroToRead).drop offset).take limit) ∧
    (((st.heroes.map heroToRead).drop offset).take limit).length
      = min limit (st.heroes.length - offset) := by
  refine ⟨rfl, ?_⟩
  simp [List.length_take, List.length_drop, List.length_map]

/-- Witness for C9, the spec's scenario: five heroes Hero0 .. Hero4,
offset 2 and limit 2 give exactly two entries, the first named "Hero2". -/
theorem C9_witness :
    2 ≤ 100 ∧
    (read_heroes fiveHeroes 2 2 = .ok (((fiveHeroes.heroes.map heroToRead).drop 2).take 2) ∧
     (((fiveHeroes.heroes.map heroToRead).drop 2).take 2).length
       = min 2 (fiveHeroes.heroes.length - 2)) ∧
    read_heroes fiveHeroes 2 2 =
      .ok [{ id := 3, name := "Hero2", secret_name := "Secret2", age := none },
           { id := 4, name := "Hero3", secret_name := "Secret3", age := none }] :=
  ⟨by decide, C9_list_heroes_window fiveHeroes 2 2 (by decide), rfl⟩

/-- C10: updating with an empty payload is an identity on the stored
record: the hero (resp. team) keeps every field and the handler returns
exactly the pre-update read projection. -/
theorem C10_empty_update_identity (st st2 : StoreState) (hero_id team_id : Nat)
    (h : Hero) (t : Team)
    (hfind : st.heroes.find? (fun x => x.id == hero_id) = some h)
    (tfind : st2.teams.find? (fun x => x.id == team_id) = some t) :
    (update_hero st hero_id emptyHeroUpdate).1 = .ok (heroToRead h) ∧
    (update_hero st hero_id emptyHeroUpdate).2.heroes.find? (fun x => x.id == hero_id) = some h ∧
    (update_team st2 team_id emptyTeamUpdate).1 = .ok (teamToRead t) ∧
    (update_team st2 team_id emptyTeamUpdate).2.teams.find? (fun x => x.id == team_id) = some t := by
  have hap : applyHeroUpdate emptyHeroUpdate h = .ok h := rfl
  have tap : applyTeamUpdate emptyTeamUpdate t = .ok t := rfl
  have hpid := List.find?_some hfind
  have tpid := List.find?_some tfind
  have hguard : (t.id != team_id && st2.teams.any (fun x => x.id == t.id)) = false := by
    simp [bne, tpid]
  have he := update_hero_found st hero_id emptyHeroUpdate h h hfind hap
  have te := update_team_found st2 team_id emptyTeamUpdate t t tfind tap hguard
  refine ⟨by rw [he], ?_, by rw [te], ?_⟩
  · rw [he]
    exact find?_map_replace (fun x => x.id == hero_id) h hpid st.heroes h hfind
  · rw [te]
    exact find?_map_replace (fun x => x.id == team_id) t tpid st2.teams t tfind

/-- Witness for C10: empty PATCH bodies on the sample hero and team. -/
theorem C10_witness :
    (update_hero sampleStore 1 emptyHeroUpdate).1 = .ok (heroToRead sampleHero) ∧
    (update_team sampleStore 1 emptyTeamUpdate).1 = .ok (teamToRead sampleTeam) :=
  ⟨(C10_empty_update_identity sampleStore sampleStore 1 1 sampleHero sampleTeam rfl rfl).1,
   (C10_empty_update_identity sampleStore sampleStore 1 1 sampleHero sampleTeam rfl rfl).2.2.1⟩
